import Mathlib

/-! Shallow embedding of the Indiana Coordinate Transformation Tool
(the single source file of the repository, a Streamlit app): the county
EPSG registry with its embedded fallback table, State Plane zone
selection, the two-tier county detection (bounding-box fast path, then a
cached boundary lookup), and the batch coordinate-transform engine with
its input-cleaning front end, together with theorems checking the claims
of the specification.

Modelling conventions.  A pandas DataFrame is a row-major table of cells;
a cell (`Value`) is a string or an exact decimal number.  Every numeric
this app manipulates — input coordinates, bounding-box bounds, values
rounded to 2 or 6 decimal places — is a finite decimal, so numbers are
embedded as scaled integers (`Dec`, meaning m / 10 ^ e) with integer
arithmetic; `Dec.toRat` gives their rational value and the bridge lemmas
`Dec.le_iff` and `Dec.norm_toRat` certify that the comparison used by the
bounding-box test and the normalization agree with the rational
semantics.  No settled claim depends on binary-float artifacts.  The
external reprojection primitive (geopandas `to_crs`) is an abstract
parameter `reproject : epsg -> (x, y) -> (x, y)`.  The remote GeoJSON
boundary fetch is an abstract parameter `fetch`, returning `none` on
failure, and the `st.session_state` cache holding its result is threaded
explicitly as `DetectState`; county detection also reports whether it
performed a fetch.  A Python dict literal is embedded as its association
list in source order, and lookup takes the value of the last occurrence
of a key, as Python dict construction does.  A Python exception escaping
the transform (in particular the unbound-local reference to
`county_upper`) is modelled as `Except.error`.  String helpers (upper,
lower, strip, title, single-character replace) are implemented on
character lists so that every definition evaluates inside the kernel.
The numeric parser models `pd.to_numeric` with coercion on plain decimal
literals, the only numeric format exercised here. -/

namespace IndianaApp

/-- An exact decimal number m / 10 ^ e.  Kept in the normal form produced
by `Dec.norm` (the mantissa of a value with e > 0 is never divisible by
10), so structural equality of the values produced by the model is
semantic equality. -/
structure Dec where
  m : ℤ
  e : ℕ
  deriving DecidableEq, Repr

/-- Shorthand constructor: `dec m e` is the decimal m / 10 ^ e. -/
def dec (m : ℤ) (e : ℕ) : Dec := ⟨m, e⟩

/-- Powers of ten, as integers, by structural recursion (kernel friendly). -/
def pow10 : ℕ → ℤ
  | 0 => 1
  | n + 1 => 10 * pow10 n

/-- Strip factors of ten from the mantissa while the exponent allows. -/
def decNormAux : ℕ → ℤ → ℤ × ℕ
  | 0, m => (m, 0)
  | e + 1, m => if m % 10 = 0 then decNormAux e (m / 10) else (m, e + 1)

/-- Normal form of a decimal (same value, minimal exponent). -/
def Dec.norm (d : Dec) : Dec :=
  ⟨(decNormAux d.e d.m).1, (decNormAux d.e d.m).2⟩

/-- Decimal comparison by cross multiplication. -/
def Dec.le (a b : Dec) : Bool :=
  decide (a.m * pow10 b.e ≤ b.m * pow10 a.e)

/-- The rational value of a decimal: its semantics. -/
def Dec.toRat (d : Dec) : ℚ :=
  (d.m : ℚ) / (10 : ℚ) ^ d.e

/-- A decimal with no fractional part. -/
def Dec.ofInt (n : ℤ) : Dec := ⟨n, 0⟩

/-- A table cell: a string or a numeric value. -/
inductive Value where
  | str (s : String)
  | num (q : Dec)
  deriving DecidableEq, Repr

/-- A pandas DataFrame, row major: a header of column names and rows of cells. -/
structure Df where
  header : List String
  rows : List (List Value)
  deriving DecidableEq, Repr

/-- Index of a named column in the header. -/
def Df.colIdx (d : Df) (name : String) : Option Nat :=
  d.header.findIdx? (fun c => c == name)

/-- The cells of a named column (indexing the frame by column name); empty if
the column is absent.  pandas would raise on a missing column, so theorems
about frames always supply the columns they index. -/
def Df.col (d : Df) (name : String) : List Value :=
  match d.colIdx name with
  | some i => d.rows.map (fun r => (r[i]?).getD (Value.str ""))
  | none => []

/-- Lookup in a dict built from a literal association list: the last binding
of a key wins, as in Python dict construction. -/
def pyGet {α : Type} (ps : List (String × α)) (k : String) : Option α :=
  (ps.reverse.find? (fun p => p.1 == k)).map (fun p => p.2)

/-- Python dict `.get(k, d)` with a default. -/
def pyGetD {α : Type} (ps : List (String × α)) (k : String) (d : α) : α :=
  (pyGet ps k).getD d

/-- Uppercase every character, as the Python `.upper()` call does on the
ASCII county names used here. -/
def pyUpper (s : String) : String :=
  (s.toList.map Char.toUpper).asString

/-- Lowercase every character, as the Python `.lower()` call does on the
ASCII column names used here. -/
def pyLower (s : String) : String :=
  (s.toList.map Char.toLower).asString

/-- The `.replace(' ', '_')` step of county-name normalization. -/
def spacesToUnderscores (s : String) : String :=
  (s.toList.map (fun c => if c = ' ' then '_' else c)).asString

/-- The `.replace('_', ' ')` step of county display formatting. -/
def underscoresToSpaces (s : String) : String :=
  (s.toList.map (fun c => if c = '_' then ' ' else c)).asString

/-- Removal of degree symbols from a coordinate cell. -/
def stripDegrees (s : String) : String :=
  (s.toList.filter (fun c => c ≠ '°')).asString

/-- Python `.strip()`: drop leading and trailing whitespace. -/
def pyStrip (s : String) : String :=
  ((s.toList.dropWhile Char.isWhitespace).reverse.dropWhile Char.isWhitespace).reverse.asString

/-- Python `str.title()` restricted to the ASCII names used here: a letter
following a non-letter is uppercased, any other letter lowercased. -/
def titleCase (s : String) : String :=
  ((s.toList.foldl
    (fun (acc : Bool × List Char) c =>
      (c.isAlpha, (if acc.1 then c.toLower else c.toUpper) :: acc.2))
    (false, [])).2.reverse).asString

/-- Substring test on character lists, for the Python `in` containment used
to find candidate columns. -/
def charsContains : List Char → List Char → Bool
  | [], needle => needle.isEmpty
  | c :: t, needle => needle.isPrefixOf (c :: t) || charsContains t needle

/-- Python substring containment: needle in hay. -/
def strContains (hay needle : String) : Bool :=
  charsContains hay.toList needle.toList

/-- pandas `.round(n)` on a decimal: the nearest decimal with n places
(halves rounded up; no settled claim evaluates at a tie), normalized.
Computed as floor((2 m 10^n + 10^e) / (2 * 10^e)) over 10^n. -/
def roundTo (n : ℕ) (d : Dec) : Dec :=
  Dec.norm ⟨Int.fdiv (2 * d.m * pow10 n + pow10 d.e) (2 * pow10 d.e), n⟩

/-- Numeric content of a cell.  The engine is only ever handed cleaned,
numeric latitude/longitude columns, so the string fallback is never hit by
the scenarios proved below. -/
def valToDec : Value → Dec
  | .num q => q
  | .str _ => ⟨0, 0⟩

/-- The two Indiana State Plane EPSG codes, `INDIANA_STATE_PLANE`. -/
def INDIANA_STATE_PLANE : List (String × ℕ) :=
  [("EAST", 2965), ("WEST", 2966)]

/-- The embedded fallback EPSG table of `load_county_epsg_codes`, copied in
source order from the dict literal returned when the CSV file is absent. -/
def default_epsg_codes : List (String × ℕ) :=
  [("ADAMS", 7301), ("ALLEN", 7260), ("BARTHOLOMEW", 7303), ("BLACKFORD", 7304),
   ("BROWN", 7305), ("CASS", 7306), ("CLARK", 7307), ("DEKALB", 7308),
   ("DEARBORN", 7309), ("DECATUR", 7310), ("DELAWARE", 7266), ("ELKHART", 7300),
   ("FAYETTE", 7313), ("FLOYD", 7314), ("FRANKLIN", 7315), ("FULTON", 7300),
   ("GRANT", 7316), ("HAMILTON", 7317), ("HANCOCK", 7308), ("HARRISON", 7319),
   ("HENRY", 7312), ("HOWARD", 7320), ("HUNTINGTON", 7321), ("JACKSON", 7322),
   ("JAY", 7323), ("JEFFERSON", 7324), ("JENNINGS", 7325), ("JOHNSON", 7326),
   ("KOSCIUSKO", 7327), ("LAGRANGE", 7328), ("MADISON", 7329), ("MARION", 7330),
   ("MARSHALL", 7300), ("MIAMI", 7331), ("NOBLE", 7332), ("OHIO", 7333),
   ("RANDOLPH", 7334), ("RIPLEY", 7354), ("RUSH", 7335), ("SCOTT", 7336),
   ("SHELBY", 7337), ("ST_JOSEPH", 7300), ("STEUBEN", 7338), ("SWITZERLAND", 7339),
   ("TIPTON", 7340), ("UNION", 7341), ("WABASH", 7342), ("WASHINGTON", 7343),
   ("WAYNE", 7352), ("WELLS", 7344), ("WHITLEY", 7345), ("BENTON", 7346),
   ("BOONE", 7268), ("CARROLL", 7348), ("CLAY", 7349), ("CLINTON", 7350),
   ("CRAWFORD", 7351), ("DAVIESS", 7355), ("DUBOIS", 7356), ("FOUNTAIN", 7357),
   ("GIBSON", 7358), ("GREENE", 7359), ("HENDRICKS", 7268), ("JASPER", 7320),
   ("KNOX", 7361), ("LA_PORTE", 7362), ("LAKE", 7363), ("LAWRENCE", 7364),
   ("MARTIN", 7365), ("MONROE", 7366), ("MONTGOMERY", 7340), ("MORGAN", 7368),
   ("NEWTON", 7369), ("ORANGE", 7370), ("OWEN", 7371), ("PARKE", 7372),
   ("PERRY", 9774), ("PIKE", 7348), ("PORTER", 7375), ("POSEY", 7376),
   ("PULASKI", 7377), ("PUTNAM", 7378), ("SPENCER", 7379), ("STARKE", 7380),
   ("SULLIVAN", 7381), ("TIPPECANOE", 7382), ("VANDERBURGH", 7383),
   ("VERMILLION", 7384), ("VIGO", 7385), ("WARREN", 7386), ("WARRICK", 7387)]

/-- Outcome of reading the registry CSV source: the file can be absent, the
read can fail for another reason (malformed content), or it yields a table
of (County, EPSG_Code) pairs. -/
inductive CsvRead where
  | absent
  | malformed
  | table (t : List (String × ℕ))

/-- `load_county_epsg_codes`: read the registry CSV; only the absent-file
case (FileNotFoundError) is caught and routed to the embedded fallback
table, so any other read failure escapes as an exception. -/
def load_county_epsg_codes : CsvRead → Except String (List (String × ℕ))
  | .absent => .ok default_epsg_codes
  | .malformed => .error "uncaught exception while reading indiana_county_epsg.csv"
  | .table t => .ok t

/-- `COUNTY_NAME_MAPPING`: alias table from display names to internal keys. -/
def COUNTY_NAME_MAPPING : List (String × String) :=
  [("La Porte", "LA_PORTE"), ("St Joseph", "ST_JOSEPH"), ("Saint Joseph", "ST_JOSEPH")]

/-- The `county_upper` computation, performed identically in
`get_state_plane_zone` and `transform_coordinates`: uppercase, replace
spaces by underscores, then override with the alias table consulted with
the raw (unnormalized) input name. -/
def canonical_county (name : String) : String :=
  pyGetD COUNTY_NAME_MAPPING name (spacesToUnderscores (pyUpper name))

/-- The hardcoded `east_counties` membership set of `get_state_plane_zone`,
in source order. -/
def east_counties : List String :=
  ["ADAMS", "ALLEN", "BARTHOLOMEW", "BLACKFORD", "BROWN", "CASS", "CLARK",
   "DEKALB", "DEARBORN", "DECATUR", "DELAWARE", "ELKHART", "FAYETTE", "FLOYD",
   "FRANKLIN", "FULTON", "GRANT", "HAMILTON", "HANCOCK", "HARRISON", "HENRY",
   "HOWARD", "HUNTINGTON", "JACKSON", "JAY", "JEFFERSON", "JENNINGS", "JOHNSON",
   "KOSCIUSKO", "LAGRANGE", "MADISON", "MARION", "MARSHALL", "MIAMI", "NOBLE",
   "OHIO", "RANDOLPH", "RIPLEY", "RUSH", "SCOTT", "SHELBY", "ST_JOSEPH",
   "STEUBEN", "SWITZERLAND", "TIPTON", "UNION", "WABASH", "WASHINGTON",
   "WAYNE", "WELLS", "WHITLEY"]

/-- `get_state_plane_zone`: normalize the county name and test membership in
the East set; every non-member (unknown names included) gets the West code. -/
def get_state_plane_zone (county_name : String) : ℕ :=
  if canonical_county county_name ∈ east_counties then
    pyGetD INDIANA_STATE_PLANE "EAST" 0
  else
    pyGetD INDIANA_STATE_PLANE "WEST" 0

/-- The FIPS-to-county dict literal of `get_indiana_fips_mapping`, as the
association list in source order (the key 18141 occurs twice). -/
def fips_pairs : List (String × String) :=
  [("18001", "ADAMS"), ("18003", "ALLEN"), ("18005", "BARTHOLOMEW"), ("18007", "BENTON"),
   ("18009", "BLACKFORD"), ("18011", "BOONE"), ("18013", "BROWN"), ("18015", "CARROLL"),
   ("18017", "CASS"), ("18019", "CLARK"), ("18021", "CLAY"), ("18023", "CLINTON"),
   ("18025", "CRAWFORD"), ("18027", "DAVIESS"), ("18029", "DEARBORN"), ("18031", "DECATUR"),
   ("18033", "DEKALB"), ("18035", "DELAWARE"), ("18037", "DUBOIS"), ("18039", "ELKHART"),
   ("18041", "FAYETTE"), ("18043", "FLOYD"), ("18045", "FOUNTAIN"), ("18047", "FRANKLIN"),
   ("18049", "FULTON"), ("18051", "GIBSON"), ("18053", "GRANT"), ("18055", "GREENE"),
   ("18057", "HAMILTON"), ("18059", "HANCOCK"), ("18061", "HARRISON"), ("18063", "HENDRICKS"),
   ("18065", "HENRY"), ("18067", "HOWARD"), ("18069", "HUNTINGTON"), ("18071", "JACKSON"),
   ("18073", "JASPER"), ("18075", "JAY"), ("18077", "JEFFERSON"), ("18079", "JENNINGS"),
   ("18081", "JOHNSON"), ("18083", "KNOX"), ("18085", "KOSCIUSKO"), ("18087", "LAGRANGE"),
   ("18089", "LAKE"), ("18091", "LA_PORTE"), ("18093", "LAWRENCE"), ("18095", "MADISON"),
   ("18097", "MARION"), ("18099", "MARSHALL"), ("18101", "MARTIN"), ("18103", "MIAMI"),
   ("18105", "MONROE"), ("18107", "MONTGOMERY"), ("18109", "MORGAN"), ("18111", "NEWTON"),
   ("18113", "NOBLE"), ("18115", "OHIO"), ("18117", "ORANGE"), ("18119", "OWEN"),
   ("18121", "PARKE"), ("18123", "PERRY"), ("18125", "PIKE"), ("18127", "PORTER"),
   ("18129", "POSEY"), ("18131", "PULASKI"), ("18133", "PUTNAM"), ("18135", "RANDOLPH"),
   ("18137", "RIPLEY"), ("18139", "RUSH"), ("18141", "SCOTT"), ("18143", "SHELBY"),
   ("18145", "SPENCER"), ("18141", "ST_JOSEPH"), ("18149", "STARKE"), ("18151", "STEUBEN"),
   ("18153", "SULLIVAN"), ("18155", "SWITZERLAND"), ("18157", "TIPPECANOE"), ("18159", "TIPTON"),
   ("18161", "UNION"), ("18163", "VANDERBURGH"), ("18165", "VERMILLION"), ("18167", "VIGO"),
   ("18169", "WABASH"), ("18171", "WARREN"), ("18173", "WARRICK"), ("18175", "WASHINGTON"),
   ("18177", "WAYNE"), ("18179", "WELLS"), ("18181", "WHITE"), ("18183", "WHITLEY")]

/-- `get_indiana_fips_mapping` as a lookup function: the dict the literal
constructs. -/
def get_indiana_fips_mapping : String → Option String :=
  pyGet fips_pairs

/-- The COUNTY_NAME attached to a boundary feature in
`load_indiana_counties_geojson`: take the part of the GEO_ID after "US"
and look it up in the FIPS mapping, defaulting to Unknown. -/
def county_name_of_geo_id (geo_id : String) : String :=
  (get_indiana_fips_mapping ((geo_id.splitOn "US").getD 1 "")).getD "Unknown"

/-- The 92 canonical Indiana county names, exactly the values of the
FIPS-table literal. -/
def indiana_county_names : List String :=
  fips_pairs.map (fun p => p.2)

/-- The pre-seeded bounding boxes of `detect_county_simple`, in source
(dict insertion) order: name, (lat min, lat max), (lon min, lon max),
with one-decimal bounds written as tenths. -/
def county_bounds : List (String × ((Dec × Dec) × (Dec × Dec))) :=
  [("LAKE", ((dec 414 1, dec 418 1), (dec (-876) 1, dec (-872) 1))),
   ("PORTER", ((dec 413 1, dec 417 1), (dec (-872) 1, dec (-868) 1))),
   ("LA_PORTE", ((dec 413 1, dec 418 1), (dec (-868) 1, dec (-864) 1))),
   ("ST_JOSEPH", ((dec 415 1, dec 418 1), (dec (-865) 1, dec (-861) 1))),
   ("ELKHART", ((dec 414 1, dec 418 1), (dec (-861) 1, dec (-856) 1))),
   ("LAGRANGE", ((dec 415 1, dec 418 1), (dec (-856) 1, dec (-852) 1))),
   ("STEUBEN", ((dec 415 1, dec 418 1), (dec (-852) 1, dec (-848) 1))),
   ("ALLEN", ((dec 409 1, dec 414 1), (dec (-853) 1, dec (-848) 1))),
   ("MARION", ((dec 396 1, dec 400 1), (dec (-863) 1, dec (-859) 1))),
   ("HAMILTON", ((dec 399 1, dec 402 1), (dec (-862) 1, dec (-858) 1))),
   ("HENDRICKS", ((dec 397 1, dec 400 1), (dec (-867) 1, dec (-863) 1)))]

/-- Inclusive bounding-box membership test of `detect_county_simple`. -/
def inBox (b : (Dec × Dec) × (Dec × Dec)) (lat lon : Dec) : Bool :=
  Dec.le b.1.1 lat && Dec.le lat b.1.2 && Dec.le b.2.1 lon && Dec.le lon b.2.2

/-- `detect_county_simple`: first bounding box containing the point, in
declaration order, if any. -/
def detect_county_simple (lat lon : Dec) : Option String :=
  (county_bounds.find? (fun cb => inBox cb.2 lat lon)).map (fun cb => cb.1)

/-- The boundary GeoDataFrame abstracted to its single use: a
point-in-polygon spatial join answering which county (COUNTY_NAME)
contains a point, if any. -/
abbrev Gdf : Type := Dec → Dec → Option String

/-- The slice of `st.session_state` used by county detection: the
`county_boundaries` entry is absent before the first fallback lookup and
afterwards holds the fetch result (which is `none` when loading failed). -/
structure DetectState where
  county_boundaries : Option (Option Gdf)

/-- `detect_county_from_coordinates`: fast bounding-box path first; on a
miss, consult the cached boundary data, fetching it (at most once per
session) when the cache entry is absent.  Returns the detected county (if
any), the updated session state, and whether a fetch was performed. -/
def detect_county_from_coordinates (fetch : Unit → Option Gdf) (st : DetectState)
    (lat lon : Dec) : Option String × DetectState × Bool :=
  match detect_county_simple lat lon with
  | some county => (some county, st, false)
  | none =>
    match st.county_boundaries with
    | some none => (none, st, false)
    | some (some g) => (g lat lon, st, false)
    | none =>
      match fetch () with
      | none => (none, ⟨some none⟩, true)
      | some g => (g lat lon, ⟨some (some g)⟩, true)

/-- The output table, column major: ordered (column name, cells) pairs,
the dynamic schema of the transform result. -/
abbrev OutDf : Type := List (String × List Value)

/-- Read a named column of the output table (first match; the engine never
produces duplicate column names). -/
def outCol (o : OutDf) (name : String) : Option (List Value) :=
  (o.find? (fun p => p.1 == name)).map (fun p => p.2)

/-- One step of the per-row auto-detection loop of `transform_coordinates`:
detect the county of one point, record it (or Unknown) and carry the
session state to the next row. -/
def detectStep (fetch : Unit → Option Gdf) (acc : List Value × DetectState)
    (p : Dec × Dec) : List Value × DetectState :=
  (Value.str ((detect_county_from_coordinates fetch acc.2 p.1 p.2).1.getD "Unknown") :: acc.1,
   (detect_county_from_coordinates fetch acc.2 p.1 p.2).2.1)

/-- The lat/lon point list of a frame, as the transform extracts it. -/
def ptsOf (df : Df) (lat_col lon_col : String) : List (Dec × Dec) :=
  ((df.col lat_col).map valToDec).zip ((df.col lon_col).map valToDec)

/-- The three always-present output columns built first by
`transform_coordinates`: ID from the first input column (row numbers when
the frame has no columns), then the rounded input echo. -/
def transformBase (df : Df) (lat_col lon_col : String) : OutDf :=
  [("ID",
    if df.header.length > 0 then
      df.rows.map (fun r => (r[0]?).getD (Value.str ""))
    else
      (List.range df.rows.length).map (fun i => Value.num (Dec.ofInt ((i : ℤ) + 1)))),
   ("Latitude_WGS84", (df.col lat_col).map (fun v => Value.num (roundTo 6 (valToDec v)))),
   ("Longitude_WGS84", (df.col lon_col).map (fun v => Value.num (roundTo 6 (valToDec v))))]

/-- `transform_coordinates`.  Parameters mirror the Python globals and
collaborators: `reproject` is the external CRS reprojection (epsg, (x, y))
to (x, y); `fetch` the boundary download; `registry` the module-level
county EPSG dict; `st` the ambient session state.  The local
`county_upper` is only assigned when a county name is supplied, and the
later unconditional read of it inside the state-plane branch is modelled
by the error case (Python raises UnboundLocalError there). -/
def transform_coordinates (reproject : ℕ → Dec × Dec → Dec × Dec)
    (fetch : Unit → Option Gdf) (registry : List (String × ℕ))
    (st : DetectState) (df : Df) (lat_col lon_col : String)
    (county_name : Option String) (auto_detect : Bool) :
    Except String (OutDf × DetectState) :=
  let county_upper? : Option String := county_name.map canonical_county
  let n : ℕ := df.rows.length
  let base : OutDf := transformBase df lat_col lon_col
  let pts : List (Dec × Dec) := ptsOf df lat_col lon_col
  let det : Option (List Value × DetectState) :=
    if auto_detect then some (pts.foldl (detectStep fetch) ([], st)) else none
  let withDet : OutDf :=
    match det with
    | some r => base ++ [("Detected_County", r.1.reverse)]
    | none => base
  let st1 : DetectState :=
    match det with
    | some r => r.2
    | none => st
  if county_name.isSome || !auto_detect then
    let target_county : String := county_name.getD "MARION"
    let state_plane_epsg : ℕ := get_state_plane_zone target_county
    let proj : List (Dec × Dec) := pts.map (fun p => reproject state_plane_epsg (p.2, p.1))
    let zone_name : String :=
      if state_plane_epsg = pyGetD INDIANA_STATE_PLANE "EAST" 0 then "East" else "West"
    let sp : OutDf := withDet ++
      [("Easting_Indiana_" ++ zone_name ++ "_ft",
          proj.map (fun p => Value.num (roundTo 2 p.1))),
       ("Northing_Indiana_" ++ zone_name ++ "_ft",
          proj.map (fun p => Value.num (roundTo 2 p.2))),
       ("State_Plane_Zone", List.replicate n (Value.str zone_name)),
       ("State_Plane_EPSG", List.replicate n (Value.num (Dec.ofInt (state_plane_epsg : ℤ))))]
    match county_upper? with
    | none =>
      .error "UnboundLocalError: local variable county_upper referenced before assignment"
    | some county_upper =>
      match pyGet registry county_upper with
      | some county_epsg =>
        let projC : List (Dec × Dec) := pts.map (fun p => reproject county_epsg (p.2, p.1))
        let county_formatted : String := titleCase (underscoresToSpaces target_county)
        .ok (sp ++
          [("Easting_" ++ county_formatted ++ "_ft",
              projC.map (fun p => Value.num (roundTo 2 p.1))),
           ("Northing_" ++ county_formatted ++ "_ft",
              projC.map (fun p => Value.num (roundTo 2 p.2))),
           ("County_EPSG", List.replicate n (Value.num (Dec.ofInt (county_epsg : ℤ))))], st1)
      | none => .ok (sp, st1)
  else
    .ok (withDet, st1)

/-- The county EPSG code the engine would use for a user-supplied county
name, with the registry in its fallback state: the normalization of
`transform_coordinates` followed by the module-level dict lookup. -/
def registry_result (name : String) : Option ℕ :=
  pyGet default_epsg_codes (canonical_county name)

/-- Parse of one digit run. -/
def digitsToNat? (cs : List Char) : Option ℕ :=
  if cs.isEmpty then none
  else
    cs.foldl (fun acc c =>
      acc.bind (fun m => if c.isDigit then some (10 * m + (c.toNat - 48)) else none))
      (some 0)

/-- Numeric parse of a cleaned cell, modelling `pd.to_numeric` with
coercion on the decimal literals this app handles: optional sign, digits,
optional fractional part; anything else is not numeric. -/
def parseNumeric (s : String) : Option Dec :=
  match s.toList with
  | [] => none
  | cs =>
    let signed : ℤ × List Char :=
      match cs with
      | '-' :: r => (-1, r)
      | '+' :: r => (1, r)
      | r => (1, r)
    let ip : List Char := signed.2.takeWhile (fun c => c ≠ '.')
    let rest : List Char := signed.2.dropWhile (fun c => c ≠ '.')
    match rest with
    | [] => (digitsToNat? ip).map (fun m => Dec.norm ⟨signed.1 * (m : ℤ), 0⟩)
    | _ :: frac =>
      if ip.isEmpty && frac.isEmpty then none
      else
        match (if ip.isEmpty then some 0 else digitsToNat? ip),
              (if frac.isEmpty then some 0 else digitsToNat? frac) with
        | some a, some b =>
          some (Dec.norm ⟨signed.1 * ((a : ℤ) * pow10 frac.length + (b : ℤ)), frac.length⟩)
        | _, _ => none

/-- The per-cell cleaning of the upload handler: stringify, drop degree
symbols, strip whitespace, coerce to numeric (`none` models NaN). -/
def toNumericCell (v : Value) : Option Dec :=
  match v with
  | .num q => some q
  | .str s => parseNumeric (pyStrip (stripDegrees s))

/-- The cleaning stage of the upload handler: replace the latitude and
longitude columns by their numeric coercions and drop every row where
either fails to parse. -/
def clean_coordinate_df (df : Df) (lat_col lon_col : String) : Df :=
  match df.colIdx lat_col, df.colIdx lon_col with
  | some li, some gi =>
    { header := df.header
      rows := df.rows.filterMap (fun r =>
        match toNumericCell ((r[li]?).getD (Value.str "")) with
        | none => none
        | some la =>
          match toNumericCell ((r[gi]?).getD (Value.str "")) with
          | none => none
          | some lo => some ((r.set li (Value.num la)).set gi (Value.num lo))) }
  | _, _ => df

/-- The transform-button handler of the upload page: clean the frame, abort
with the no-valid-coordinates message when nothing survives, otherwise run
the engine. -/
def show_file_upload_transform (reproject : ℕ → Dec × Dec → Dec × Dec)
    (fetch : Unit → Option Gdf) (registry : List (String × ℕ))
    (st : DetectState) (df : Df) (lat_col lon_col : String)
    (selected_county : Option String) (auto_detect : Bool) :
    Except String (OutDf × DetectState) :=
  let df_clean := clean_coordinate_df df lat_col lon_col
  if df_clean.rows.length = 0 then
    .error "No valid coordinates found after cleaning!"
  else
    transform_coordinates reproject fetch registry st df_clean lat_col lon_col
      selected_county auto_detect

/-- Keywords identifying candidate ID columns in the upload page. -/
def id_keywords : List String := ["id", "boring", "point", "name"]

/-- Candidate ID columns: header names containing one of the keywords,
case-insensitively. -/
def id_candidates (cols : List String) : List String :=
  cols.filter (fun c => id_keywords.any (fun k => strContains (pyLower c) k))

/-- The options offered by the ID-column selectbox (whose default, index 0,
is always the first column). -/
def id_options (cols : List String) : List String :=
  if !(id_candidates cols).isEmpty then [cols.headD ""] ++ id_candidates cols
  else cols

/-- An identity stand-in for the external reprojector, used to instantiate
closed evaluations (the settled claims do not depend on projection math). -/
def projSame : ℕ → Dec × Dec → Dec × Dec := fun _ p => p

/-- A boundary fetch that fails (network or parse failure). -/
def fetchFail : Unit → Option Gdf := fun _ => none

/-- Session state before any boundary fetch. -/
def st0 : DetectState := ⟨none⟩

/-- The example input row of the specification scenario:
(Point1, 39.7684, -86.1581). -/
def dfPoint1 : Df :=
  ⟨["ID", "Lat", "Lon"],
   [[Value.str "Point1", Value.num (dec 397684 4), Value.num (dec (-861581) 4)]]⟩

/-- A frame whose first column is the latitude column while an
identifier-matching column sits last. -/
def dfLatFirst : Df :=
  ⟨["Latitude", "Longitude", "PointID"],
   [[Value.num (dec 397684 4), Value.num (dec (-861581) 4), Value.str "P1"]]⟩

/-- A frame whose single row has an unparseable latitude. -/
def dfUnparseable : Df :=
  ⟨["ID", "Lat", "Lon"],
   [[Value.str "P1", Value.str "abc", Value.str "10"]]⟩

/-- A frame whose single row lies in no pre-seeded bounding box. -/
def dfOffGrid : Df :=
  ⟨["ID", "Lat", "Lon"],
   [[Value.str "P", Value.num (dec 0 0), Value.num (dec 0 0)]]⟩

/-- Powers of ten agree with the Mathlib power. -/
theorem pow10_eq (n : ℕ) : pow10 n = (10 : ℤ) ^ n := by
  induction n with
  | zero => rfl
  | succ k ih => rw [pow10, ih, pow_succ]; ring

/-- The decimal comparison is the rational comparison of the values: the
bounding-box test has the intended semantics. -/
theorem Dec.le_iff (a b : Dec) : Dec.le a b = true ↔ a.toRat ≤ b.toRat := by
  unfold Dec.le Dec.toRat
  rw [decide_eq_true_iff]
  rw [div_le_div_iff₀ (by positivity) (by positivity)]
  rw [pow10_eq, pow10_eq]
  constructor
  · intro h
    exact_mod_cast h
  · intro h
    exact_mod_cast h

/-- Normalization is value preserving, step by step. -/
theorem decNormAux_toRat : ∀ (e : ℕ) (m : ℤ),
    (((decNormAux e m).1 : ℚ) / (10 : ℚ) ^ (decNormAux e m).2)
      = (m : ℚ) / (10 : ℚ) ^ e := by
  intro e
  induction e with
  | zero => intro m; rfl
  | succ k ih =>
    intro m
    by_cases h : m % 10 = 0
    · have hdvd : (10 : ℤ) ∣ m := Int.dvd_of_emod_eq_zero h
      obtain ⟨c, rfl⟩ := hdvd
      rw [decNormAux, if_pos h, ih, Int.mul_ediv_cancel_left c (by norm_num)]
      push_cast
      rw [pow_succ]
      field_simp
      ring
    · rw [decNormAux, if_neg h]

/-- Normalization is value preserving. -/
theorem Dec.norm_toRat (d : Dec) : d.norm.toRat = d.toRat := by
  unfold Dec.norm Dec.toRat
  exact decNormAux_toRat d.e d.m

/-- Reading the column appended at the end of an output table succeeds when
no earlier column carries the same name. -/
theorem outCol_append_last (o : OutDf) (name : String) (xs : List Value)
    (h : ∀ p ∈ o, (p.1 == name) = false) :
    outCol (o ++ [(name, xs)]) name = some xs := by
  induction o with
  | nil => simp [outCol]
  | cons a t ih =>
    have ha := h a (List.mem_cons_self a t)
    have ht : ∀ p ∈ t, (p.1 == name) = false :=
      fun p hp => h p (List.mem_cons_of_mem a hp)
    simpa [outCol, List.find?_cons, ha] using ih ht

/-- The per-row detection loop under a failing boundary fetch: when every
point misses the fast path, every row records Unknown and the session cache
never acquires boundary data. -/
theorem detect_fold_all_unknown (fetch : Unit → Option Gdf) (hf : fetch () = none) :
    ∀ (pts : List (Dec × Dec)) (acc : List Value) (st : DetectState),
      st.county_boundaries = none ∨ st.county_boundaries = some none →
      (∀ p ∈ pts, detect_county_simple p.1 p.2 = none) →
      (pts.foldl (detectStep fetch) (acc, st)).1
        = List.replicate pts.length (Value.str "Unknown") ++ acc := by
  intro pts
  induction pts with
  | nil => intro acc st _ _; simp
  | cons p ps ih =>
    intro acc st hst h
    have hp : detect_county_simple p.1 p.2 = none := h p (List.mem_cons_self p ps)
    have hps : ∀ q ∈ ps, detect_county_simple q.1 q.2 = none :=
      fun q hq => h q (List.mem_cons_of_mem p hq)
    rcases hst with hst | hst
    · have hd : detectStep fetch (acc, st) p = (Value.str "Unknown" :: acc, ⟨some none⟩) := by
        simp [detectStep, detect_county_from_coordinates, hp, hst, hf]
      rw [List.foldl_cons, hd, ih (Value.str "Unknown" :: acc) ⟨some none⟩ (Or.inr rfl) hps]
      simp [List.replicate_succ', List.append_assoc]
    · have hd : detectStep fetch (acc, st) p = (Value.str "Unknown" :: acc, st) := by
        simp [detectStep, detect_county_from_coordinates, hp, hst]
      rw [List.foldl_cons, hd, ih (Value.str "Unknown" :: acc) st (Or.inr hst) hps]
      simp [List.replicate_succ', List.append_assoc]

/-- C1 (counterexample): for the scenario row (Point1, 39.7684, -86.1581)
with no explicit county and auto-detect on, the output holds only the four
base columns ID, Latitude_WGS84, Longitude_WGS84, Detected_County — no
state-plane Easting/Northing, no State_Plane_EPSG and no county-specific
columns — and the recorded county is the canonical MARION, not the display
form Marion; this contradicts the claimed output of the example scenario. -/
theorem point1_auto_detect_lacks_state_plane_columns :
    ((transform_coordinates projSame fetchFail default_epsg_codes st0 dfPoint1
        "Lat" "Lon" none true).toOption.map (fun r => r.1.map Prod.fst)
      = some ["ID", "Latitude_WGS84", "Longitude_WGS84", "Detected_County"]) ∧
    ((transform_coordinates projSame fetchFail default_epsg_codes st0 dfPoint1
        "Lat" "Lon" none true).toOption.bind (fun r => outCol r.1 "Detected_County")
      = some [Value.str "MARION"]) := by
  constructor
  · decide
  · decide

/-- C1 (amended): for the input row (Point1, 39.7684, -86.1581) with no
explicit county and auto-detect on, detection resolves MARION via the fast
path and is recorded in Detected_County, but since no county was supplied
and auto-detect is on, the state-plane branch is skipped entirely: for any
reprojector, boundary fetch, registry and session state the output is
exactly ID, Latitude_WGS84, Longitude_WGS84, Detected_County, and the
session state is untouched. -/
theorem point1_auto_detect_exact_output (reproject : ℕ → Dec × Dec → Dec × Dec)
    (fetch : Unit → Option Gdf) (registry : List (String × ℕ)) (st : DetectState) :
    transform_coordinates reproject fetch registry st dfPoint1 "Lat" "Lon" none true
      = .ok ([("ID", [Value.str "Point1"]),
              ("Latitude_WGS84", [Value.num (dec 397684 4)]),
              ("Longitude_WGS84", [Value.num (dec (-861581) 4)]),
              ("Detected_County", [Value.str "MARION"])], st) :=
  rfl

/-- C2: calling the transform with no supplied county and auto-detect off
enters the state-plane branch (the target county does default to MARION
there), but the county-EPSG lookup then reads the local county_upper that
is only ever assigned when a county name was supplied, so an
UnboundLocalError escapes for every input frame; no columns are produced.
The column-presence hypotheses confine the statement to frames on which
pandas would not already have raised a KeyError at the earlier column
accesses. -/
theorem no_county_no_autodetect_raises (reproject : ℕ → Dec × Dec → Dec × Dec)
    (fetch : Unit → Option Gdf) (registry : List (String × ℕ)) (st : DetectState)
    (df : Df) (lat_col lon_col : String)
    (_hlat : (df.colIdx lat_col).isSome = true) (_hlon : (df.colIdx lon_col).isSome = true) :
    transform_coordinates reproject fetch registry st df lat_col lon_col none false
      = .error "UnboundLocalError: local variable county_upper referenced before assignment" :=
  rfl

/-- Witness for the C2 theorem at the concrete scenario frame. -/
theorem no_county_no_autodetect_raises_witness :
    (dfPoint1.colIdx "Lat").isSome = true ∧ (dfPoint1.colIdx "Lon").isSome = true ∧
    transform_coordinates projSame fetchFail default_epsg_codes st0 dfPoint1
        "Lat" "Lon" none false
      = .error "UnboundLocalError: local variable county_upper referenced before assignment" :=
  ⟨by decide, by decide,
   no_county_no_autodetect_raises projSame fetchFail default_epsg_codes st0 dfPoint1
     "Lat" "Lon" (by decide) (by decide)⟩

/-- C3: with the registry source absent, loading falls back to the embedded
table, but that table has only 91 entries: of the 92 canonical county names
(the values of the FIPS literal, pairwise distinct), exactly WHITE fails
lookup.  Moreover only the absent-file case is caught, so a malformed
source escapes as an exception instead of falling back. -/
theorem registry_fallback_misses_white :
    load_county_epsg_codes CsvRead.absent = .ok default_epsg_codes ∧
    default_epsg_codes.length = 91 ∧
    indiana_county_names.length = 92 ∧
    indiana_county_names.Nodup ∧
    indiana_county_names.filter (fun c => (pyGet default_epsg_codes c).isNone) = ["WHITE"] ∧
    load_county_epsg_codes CsvRead.malformed
      = .error "uncaught exception while reading indiana_county_epsg.csv" :=
  ⟨rfl, rfl, rfl, by decide, by decide, rfl⟩

/-- C4: zone selection is total on strings and decided exactly by
membership of the normalized name in the East set: members get the East
code 2965, every other string (unknown names included) gets the West code
2966. -/
theorem zone_selection_total_membership (s : String) :
    (get_state_plane_zone s = 2965 ∨ get_state_plane_zone s = 2966) ∧
    (get_state_plane_zone s = 2965 ↔ canonical_county s ∈ east_counties) := by
  by_cases h : canonical_county s ∈ east_counties
  · have hz : get_state_plane_zone s = 2965 := by
      unfold get_state_plane_zone
      rw [if_pos h]
      decide
    refine ⟨Or.inl hz, ?_⟩
    rw [hz]
    simp [h]
  · have hz : get_state_plane_zone s = 2966 := by
      unfold get_state_plane_zone
      rw [if_neg h]
      decide
    refine ⟨Or.inr hz, ?_⟩
    rw [hz]
    simp [h]

/-- C5 (counterexample): matching is not case-insensitive, because the alias
table is consulted with the raw input name: Saint Joseph hits the alias and
resolves to ST_JOSEPH (East zone 2965, registry code 7300), while its
lowercase variant saint joseph merely normalizes to SAINT_JOSEPH, getting
the West zone 2966 and no registry code at all. -/
theorem saint_joseph_case_variant_differs :
    pyLower "Saint Joseph" = "saint joseph" ∧
    get_state_plane_zone "Saint Joseph" = 2965 ∧
    get_state_plane_zone "saint joseph" = 2966 ∧
    registry_result "Saint Joseph" = some 7300 ∧
    registry_result "saint joseph" = none := by
  refine ⟨by decide, by decide, by decide, by decide, by decide⟩

/-- C5 (amended): for county names that miss the alias table, matching is
case-insensitive: two names that agree after uppercasing get the same zone
selection and the same registry lookup.  (Names hitting the alias table are
matched case-sensitively on the raw input, which is the exception proved in
the counterexample.) -/
theorem case_insensitive_off_alias (s t : String)
    (hs : pyGet COUNTY_NAME_MAPPING s = none)
    (ht : pyGet COUNTY_NAME_MAPPING t = none)
    (h : pyUpper s = pyUpper t) :
    get_state_plane_zone s = get_state_plane_zone t ∧
    registry_result s = registry_result t := by
  have hc : canonical_county s = canonical_county t := by
    unfold canonical_county pyGetD
    rw [hs, ht, h]
  constructor
  · unfold get_state_plane_zone
    rw [hc]
  · unfold registry_result
    rw [hc]

/-- Witness for the C5 amended theorem at a concrete case-variant pair. -/
theorem case_insensitive_off_alias_witness :
    pyGet COUNTY_NAME_MAPPING "marion" = none ∧
    pyGet COUNTY_NAME_MAPPING "MARION" = none ∧
    pyUpper "marion" = pyUpper "MARION" ∧
    (get_state_plane_zone "marion" = get_state_plane_zone "MARION" ∧
     registry_result "marion" = registry_result "MARION") :=
  ⟨by decide, by decide, by decide,
   case_insensitive_off_alias "marion" "MARION" (by decide) (by decide) (by decide)⟩

/-- C6: a point inside at least one pre-seeded bounding box is resolved by
the fast path alone: detection returns a county whose box contains the
point (the first such box in declaration order), the session cache is left
exactly as it was, and no boundary fetch is performed. -/
theorem fast_path_skips_boundary_fetch (fetch : Unit → Option Gdf) (st : DetectState)
    (lat lon : Dec) (h : ∃ cb ∈ county_bounds, inBox cb.2 lat lon = true) :
    ∃ c, detect_county_from_coordinates fetch st lat lon = (some c, st, false) ∧
      ∃ cb ∈ county_bounds, cb.1 = c ∧ inBox cb.2 lat lon = true := by
  have hs : (county_bounds.find? (fun cb => inBox cb.2 lat lon)).isSome := by
    rw [List.find?_isSome]
    obtain ⟨cb, hmem, hbox⟩ := h
    exact ⟨cb, hmem, hbox⟩
  obtain ⟨cb, hfind⟩ := Option.isSome_iff_exists.mp hs
  have hboxcb : inBox cb.2 lat lon = true := by
    have := List.find?_some hfind
    simpa using this
  refine ⟨cb.1, ?_, cb, List.mem_of_find?_eq_some hfind, rfl, hboxcb⟩
  unfold detect_county_from_coordinates detect_county_simple
  rw [hfind]
  rfl

/-- Witness for the C6 theorem at the scenario point, which lies in the
MARION box. -/
theorem fast_path_skips_boundary_fetch_witness :
    (∃ cb ∈ county_bounds, inBox cb.2 (dec 397684 4) (dec (-861581) 4) = true) ∧
    ∃ c, detect_county_from_coordinates fetchFail st0 (dec 397684 4) (dec (-861581) 4)
        = (some c, st0, false) ∧
      ∃ cb ∈ county_bounds, cb.1 = c ∧ inBox cb.2 (dec 397684 4) (dec (-861581) 4) = true :=
  ⟨by decide, fast_path_skips_boundary_fetch fetchFail st0 _ _ (by decide)⟩

/-- C7: when the boundary data cannot be fetched and every row of the batch
misses the fast-path boxes, the transform still completes: it returns an
output table (no error) whose Detected_County column is Unknown for every
row. -/
theorem boundary_failure_batch_completes (reproject : ℕ → Dec × Dec → Dec × Dec)
    (registry : List (String × ℕ)) (df : Df) (lat_col lon_col : String)
    (hlat : df.colIdx lat_col ≠ none) (hlon : df.colIdx lon_col ≠ none)
    (h : ∀ p ∈ ptsOf df lat_col lon_col, detect_county_simple p.1 p.2 = none) :
    ∃ out stF,
      transform_coordinates reproject fetchFail registry st0 df lat_col lon_col none true
        = .ok (out, stF) ∧
      outCol out "Detected_County"
        = some (List.replicate df.rows.length (Value.str "Unknown")) := by
  obtain ⟨li, hli⟩ := Option.ne_none_iff_exists'.mp hlat
  obtain ⟨gi, hgi⟩ := Option.ne_none_iff_exists'.mp hlon
  have hzip : (ptsOf df lat_col lon_col).length = df.rows.length := by
    unfold ptsOf
    rw [List.length_zip]
    simp [Df.col, hli, hgi]
  have hts : transform_coordinates reproject fetchFail registry st0 df lat_col lon_col none true
      = .ok (transformBase df lat_col lon_col ++
            [("Detected_County",
              ((ptsOf df lat_col lon_col).foldl (detectStep fetchFail) ([], st0)).1.reverse)],
            ((ptsOf df lat_col lon_col).foldl (detectStep fetchFail) ([], st0)).2) := rfl
  refine ⟨_, _, hts, ?_⟩
  rw [outCol_append_last]
  · rw [detect_fold_all_unknown fetchFail rfl _ [] st0 (Or.inl rfl) h]
    rw [List.append_nil, List.reverse_replicate, hzip]
  · intro p hp
    simp only [transformBase, List.mem_cons, List.not_mem_nil, or_false] at hp
    rcases hp with rfl | rfl | rfl <;> rfl

/-- Witness for the C7 theorem: a one-row batch at (0, 0), outside every
pre-seeded box, under the failing fetch. -/
theorem boundary_failure_batch_completes_witness :
    dfOffGrid.colIdx "Lat" ≠ none ∧ dfOffGrid.colIdx "Lon" ≠ none ∧
    (∀ p ∈ ptsOf dfOffGrid "Lat" "Lon", detect_county_simple p.1 p.2 = none) ∧
    ∃ out stF,
      transform_coordinates projSame fetchFail default_epsg_codes st0 dfOffGrid
          "Lat" "Lon" none true = .ok (out, stF) ∧
      outCol out "Detected_County"
        = some (List.replicate dfOffGrid.rows.length (Value.str "Unknown")) :=
  ⟨by decide, by decide, by decide,
   boundary_failure_batch_completes projSame default_epsg_codes dfOffGrid "Lat" "Lon"
     (by decide) (by decide) (by decide)⟩

/-- C8: when every row of the batch has an unparseable latitude or
longitude cell, cleaning excludes all rows, the handler aborts with the
no-valid-coordinates message, zero output rows are produced, and the
engine (hence the reprojector) is never consulted — the conclusion holds
for every reprojector, fetch, registry, county setting and detection
flag. -/
theorem all_rows_unparseable_aborts (reproject : ℕ → Dec × Dec → Dec × Dec)
    (fetch : Unit → Option Gdf) (registry : List (String × ℕ)) (st : DetectState)
    (df : Df) (lat_col lon_col : String) (county : Option String) (ad : Bool)
    (li gi : ℕ) (hli : df.colIdx lat_col = some li) (hgi : df.colIdx lon_col = some gi)
    (h : ∀ r ∈ df.rows,
        toNumericCell ((r[li]?).getD (Value.str "")) = none ∨
        toNumericCell ((r[gi]?).getD (Value.str "")) = none) :
    (clean_coordinate_df df lat_col lon_col).rows = [] ∧
    show_file_upload_transform reproject fetch registry st df lat_col lon_col county ad
      = .error "No valid coordinates found after cleaning!" := by
  have hclean : (clean_coordinate_df df lat_col lon_col).rows = [] := by
    simp only [clean_coordinate_df, hli, hgi]
    rw [List.filterMap_eq_nil_iff]
    intro r hr
    rcases h r hr with h1 | h1
    · simp [h1]
    · cases hA : toNumericCell ((r[li]?).getD (Value.str "")) <;> simp [hA, h1]
  refine ⟨hclean, ?_⟩
  unfold show_file_upload_transform
  simp [hclean]

/-- Witness for the C8 theorem at a one-row batch with latitude abc. -/
theorem all_rows_unparseable_aborts_witness :
    dfUnparseable.colIdx "Lat" = some 1 ∧ dfUnparseable.colIdx "Lon" = some 2 ∧
    (∀ r ∈ dfUnparseable.rows,
        toNumericCell ((r[1]?).getD (Value.str "")) = none ∨
        toNumericCell ((r[2]?).getD (Value.str "")) = none) ∧
    ((clean_coordinate_df dfUnparseable "Lat" "Lon").rows = [] ∧
     show_file_upload_transform projSame fetchFail default_epsg_codes st0 dfUnparseable
         "Lat" "Lon" none true
       = .error "No valid coordinates found after cleaning!") :=
  ⟨by decide, by decide, by decide,
   all_rows_unparseable_aborts projSame fetchFail default_epsg_codes st0 dfUnparseable
     "Lat" "Lon" none true 1 2 (by decide) (by decide) (by decide)⟩

/-- C9: the engine sets the output ID column from the first input column
unconditionally.  On a frame whose first column is the latitude column and
whose identifier-matching column (PointID, found by the keyword scan) sits
last, the output ID carries the latitude values, not the identifier values
— and even the upload-page selectbox default (index 0 of its options) is
the first column rather than the matching candidate. -/
theorem output_id_ignores_identifier_column :
    id_candidates dfLatFirst.header = ["PointID"] ∧
    (id_options dfLatFirst.header).headD "" = "Latitude" ∧
    (transform_coordinates projSame fetchFail default_epsg_codes st0 dfLatFirst
        "Latitude" "Longitude" (some "Marion") false).toOption.bind
      (fun r => outCol r.1 "ID") = some [Value.num (dec 397684 4)] := by
  refine ⟨by decide, by decide, by decide⟩

set_option maxRecDepth 20000 in
/-- C10: the FIPS literal lists the key 18141 twice (SCOTT, then
ST_JOSEPH); dict construction keeps the later binding, so the mapping has
91 distinct keys, 18141 maps to ST_JOSEPH, and no GEO_ID whatsoever can be
assigned the county name SCOTT by the boundary loader. -/
theorem fips_duplicate_key_scott_unreachable :
    (fips_pairs.map Prod.fst).count "18141" = 2 ∧
    ("18141", "SCOTT") ∈ fips_pairs ∧
    ("18141", "ST_JOSEPH") ∈ fips_pairs ∧
    get_indiana_fips_mapping "18141" = some "ST_JOSEPH" ∧
    (fips_pairs.map Prod.fst).dedup.length = 91 ∧
    ∀ g : String, county_name_of_geo_id g ≠ "SCOTT" := by
  refine ⟨by decide, by decide, by decide, by decide, by decide, ?_⟩
  intro g
  unfold county_name_of_geo_id
  cases hfind : get_indiana_fips_mapping ((g.splitOn "US").getD 1 "") with
  | none => decide
  | some v =>
    intro hv
    have hveq : v = "SCOTT" := hv
    subst hveq
    have hfind2 := hfind
    unfold get_indiana_fips_mapping pyGet at hfind2
    obtain ⟨pr, hpr, hprv⟩ := Option.map_eq_some'.mp hfind2
    have hmem : pr ∈ fips_pairs := List.mem_reverse.mp (List.mem_of_find?_eq_some hpr)
    have h18141 : pr.1 = "18141" := by
      have hall : ∀ q ∈ fips_pairs, q.2 = "SCOTT" → q.1 = "18141" := by decide
      exact hall pr hmem hprv
    have hkey : pr.1 = (g.splitOn "US").getD 1 "" := by
      have := List.find?_some hpr
      simpa using this
    have hk : (g.splitOn "US").getD 1 "" = "18141" := by rw [← hkey, h18141]
    rw [hk] at hfind
    have hST : get_indiana_fips_mapping "18141" = some "ST_JOSEPH" := by decide
    rw [hfind] at hST
    exact absurd (Option.some.inj hST) (by decide)

end IndianaApp
